import Mathlib

/-!
Shallow embedding of `src/supa/db/model.py` (SuPA database models) together
with the parts of its storage/ORM substrate that the models' declarations
invoke (value-codec bind/result processing, enum-column bind validation,
unique/check/foreign-key constraint checking on insert, engine-level
cascade delete, and the auto-renumbering ordered collections).

Conventions:
* Python `uuid.UUID` values are 128-bit naturals (`u < 2 ^ 128`).
* Python `datetime` values are wall-clock seconds (an `Int`, any linear
  wall-clock coordinate works), a microsecond component, and an optional
  UTC offset in seconds (`none` = naive datetime).
* Python exceptions raised by the codecs and the storage engine are
  constructors of `PyError`.
-/

/-- Errors raised by the embedded code: `ValueError` (Uuid codec),
`UtcTimestampException` (UtcTimestamp codec), `LookupError` (enum bind
validation) and storage-engine constraint violations. -/
inductive PyError where
  | valueError (msg : String)
  | utcTimestampException (msg : String)
  | lookupError (msg : String)
  | integrityError (msg : String)
deriving DecidableEq, Repr

/-! ## Python `datetime` model -/

/-- A Python `datetime`: wall-clock seconds, microsecond component, and the
timezone's UTC offset in seconds (`none` when the datetime is naive). -/
structure PyDatetime where
  wallSec : Int
  micros : Nat
  tzOffset : Option Int
deriving DecidableEq, Repr

/-- `d.astimezone(timezone.utc)` for an aware datetime with offset `o`:
the same instant expressed in UTC wall-clock time. -/
def PyDatetime.astimezoneUtc (d : PyDatetime) (o : Int) : PyDatetime :=
  { wallSec := d.wallSec - o, micros := d.micros, tzOffset := some 0 }

/-- `d.replace(tzinfo=timezone.utc)`: same wall clock, UTC label attached. -/
def PyDatetime.replaceTzUtc (d : PyDatetime) : PyDatetime :=
  { d with tzOffset := some 0 }

/-- The instant a datetime denotes, in microseconds, when it is aware. -/
def PyDatetime.instant? (d : PyDatetime) : Option Int :=
  d.tzOffset.map fun o => (d.wallSec - o) * 1000000 + (d.micros : Int)

/-! ## `UtcTimestamp` column type (`model.py` lines 152-177) -/

namespace UtcTimestamp

/-- `UtcTimestamp.process_bind_param`: `None` passes through; a naive
timestamp raises `UtcTimestampException`; an aware one is converted to UTC. -/
def process_bind_param (value : Option PyDatetime) :
    Except PyError (Option PyDatetime) :=
  match value with
  | none => .ok none
  | some v =>
    match v.tzOffset with
    | none =>
      .error (.utcTimestampException
        "Expected timestamp with tzinfo. Got naive timestamp instead")
    | some o => .ok (some (v.astimezoneUtc o))

/-- `UtcTimestamp.process_result_value`: `None` passes through; an aware
stored value is converted to UTC; a naive stored value gets the UTC label
attached without offset conversion. -/
def process_result_value (value : Option PyDatetime) : Option PyDatetime :=
  match value with
  | none => none
  | some v =>
    match v.tzOffset with
    | some o => some (v.astimezoneUtc o)
    | none => some v.replaceTzUtc

/-- The column's `impl`, `sqlite.DATETIME(truncate_microseconds=True)`:
SQLite stores the string `yyyy-mm-dd hh:mm:ss`, i.e. the wall clock truncated
to whole seconds with the timezone stripped; reading it back yields a naive
datetime. -/
def sqliteDatetimeStore (d : PyDatetime) : PyDatetime :=
  { wallSec := d.wallSec, micros := 0, tzOffset := none }

/-- Write `t` through `process_bind_param`, the SQLite DATETIME storage and
`process_result_value`. -/
def storeRoundtrip (t : Option PyDatetime) : Except PyError (Option PyDatetime) :=
  (process_bind_param t).map fun stored =>
    process_result_value (stored.map sqliteDatetimeStore)

end UtcTimestamp

/-! ## `Uuid` column type (`model.py` lines 92-113)

The column stores `uuid.UUID` values as their canonical `str` form and
parses them back with `uuid.UUID(value)`.  We embed CPython's hexadecimal
printing (`str(uuid)`: 32 lowercase hex digits hyphenated 8-4-4-4-12) and
parsing (`UUID(hex=...)`: strip `urn:`/`uuid:`/braces/hyphens, require 32
hex digits).  `int(hex, 16)`'s tolerance for underscores between digits and
surrounding whitespace is not modelled; no claim depends on those inputs. -/

/-- Lowercase hexadecimal digit character for `d < 16` (as `'%x' %` does). -/
def hexDigitChar (d : Nat) : Char :=
  if d < 10 then Char.ofNat (48 + d) else Char.ofNat (87 + d)

/-- Fixed-width big-endian hexadecimal rendering of `n` (as `'%032x' %`
does for `width = 32`). -/
def natToHex (width n : Nat) : List Char :=
  match width with
  | 0 => []
  | w + 1 => natToHex w (n / 16) ++ [hexDigitChar (n % 16)]

/-- The characters `int(_, 16)` accepts as digits. -/
def isHexChar (c : Char) : Bool :=
  (decide ('0' ≤ c) && decide (c ≤ '9')) ||
  (decide ('a' ≤ c) && decide (c ≤ 'f')) ||
  (decide ('A' ≤ c) && decide (c ≤ 'F'))

/-- Numeric value of a hexadecimal digit character (junk elsewhere). -/
def hexCharVal (c : Char) : Nat :=
  if decide ('0' ≤ c) && decide (c ≤ '9') then c.toNat - 48
  else if decide ('a' ≤ c) && decide (c ≤ 'f') then c.toNat - 87
  else if decide ('A' ≤ c) && decide (c ≤ 'F') then c.toNat - 55
  else 0

/-- `int(cs, 16)` on a list of hex digit characters. -/
def hexListVal (cs : List Char) : Nat :=
  cs.foldl (fun a c => a * 16 + hexCharVal c) 0

/-- `str(uuid.UUID)`'s 8-4-4-4-12 hyphenation of the 32 hex digits. -/
def uuidHyphenate (h : List Char) : List Char :=
  h.take 8 ++ '-' :: (h.drop 8).take 4 ++ '-' :: (h.drop 12).take 4 ++
    '-' :: (h.drop 16).take 4 ++ '-' :: h.drop 20

/-- `str(value)` for a `uuid.UUID` with integer value `u`. -/
def uuidStr (u : Nat) : String :=
  String.mk (uuidHyphenate (natToHex 32 u))

/-- Worker for `str.replace(pat, '')`: scan left to right, skipping each
occurrence of the (non-empty) pattern; each step consumes at least one
character, so `fuel = cs.length` suffices. -/
def replaceAllGo (pat : List Char) : Nat → List Char → List Char
  | _, [] => []
  | 0, cs => cs
  | fuel + 1, c :: rest =>
    if pat.isPrefixOf (c :: rest) then
      replaceAllGo pat fuel (rest.drop (pat.length - 1))
    else
      c :: replaceAllGo pat fuel rest

/-- `str.replace(pat, '')`: remove every (non-overlapping, leftmost-first)
occurrence of `pat`. -/
def replaceAll (pat cs : List Char) : List Char :=
  match pat with
  | [] => cs
  | _ :: _ => replaceAllGo pat cs.length cs

/-- A curly-brace character (`str.strip('\x7b\x7d')`'s strip set). -/
def isBrace (c : Char) : Bool :=
  c == '\x7b' || c == '\x7d'

/-- `str.strip('\x7b\x7d')`: remove leading and trailing braces. -/
def stripBraces (cs : List Char) : List Char :=
  ((cs.dropWhile isBrace).reverse.dropWhile isBrace).reverse

/-- `uuid.UUID.__init__`'s normalisation of the `hex` argument:
`hex.replace('urn:', '').replace('uuid:', '').strip('\x7b\x7d').replace('-', '')`. -/
def pyUuidNormalize (cs : List Char) : List Char :=
  (stripBraces (replaceAll "uuid:".toList (replaceAll "urn:".toList cs))).filter
    (fun c => c != '-')

/-- `uuid.UUID(value)`: normalise, require exactly 32 hex digits, read the
integer value (which is then necessarily `< 2 ^ 128`). -/
def pyUuidParse (s : String) : Option Nat :=
  let cs := pyUuidNormalize s.toList
  if cs.length = 32 ∧ cs.all isHexChar then some (hexListVal cs) else none

/-- A Python value handed to the `Uuid` column: either a `uuid.UUID`
instance (integer value `u`) or any other object. -/
inductive PyUuidValue where
  | uuid (u : Nat)
  | other (s : String)
deriving DecidableEq, Repr

namespace Uuid

/-- `Uuid.process_bind_param`: `None` passes through; a non-`uuid.UUID`
value raises `ValueError`; a `uuid.UUID` is stored as `str(value)`. -/
def process_bind_param (value : Option PyUuidValue) :
    Except PyError (Option String) :=
  match value with
  | none => .ok none
  | some (.uuid u) => .ok (some (uuidStr u))
  | some (.other _) => .error (.valueError "is not a valid UUID.")

/-- `Uuid.process_result_value`: `None` passes through; otherwise
`uuid.UUID(value)`, which raises `ValueError` on unparseable input. -/
def process_result_value (value : Option String) :
    Except PyError (Option Nat) :=
  match value with
  | none => .ok none
  | some s =>
    match pyUuidParse s with
    | some u => .ok (some u)
    | none => .error (.valueError "badly formed hexadecimal UUID string")

end Uuid

/-! ## State-machine-coupled enum columns (`model.py` lines 239-249) -/

/-- A state of a Python `statemachine` state machine: it has a `name` and a
`value`. -/
structure PyState where
  name : String
  value : String
deriving DecidableEq, Repr

/-- Modelled from the spec: the three state machines of
`supa.connection.fsm` (`ReservationStateMachine`, `ProvisioningStateMachine`,
`LifecycleStateMachine`) are external collaborators not among the sources;
the spec consumes each "only as 'the enumerated legal value set for column
X'" and speaks interchangeably of a machine's "value sets" and its
"state-name set".  A machine is therefore just its list of states, and the
identification of the name set with the value set is carried as an explicit
hypothesis (`PyStateMachine.namesAreValues`) where a column reads `s.name`
rather than `s.value`. -/
structure PyStateMachine where
  states : List PyState
deriving DecidableEq, Repr

/-- The machine's value set, `[s.value for s in M.states]`. -/
def PyStateMachine.enumValues (m : PyStateMachine) : List String :=
  m.states.map (fun s => s.value)

/-- The machine's name set, `[s.name for s in M.states]`. -/
def PyStateMachine.enumNames (m : PyStateMachine) : List String :=
  m.states.map (fun s => s.name)

/-- The spec's identification of a machine's state-name set with its value
set. -/
def PyStateMachine.namesAreValues (m : PyStateMachine) : Prop :=
  ∀ s ∈ m.states, s.name = s.value

/-- SQLAlchemy `Enum(*legal)` bind processing: a written value is looked up
among the enumerated legal values and rejected with a `LookupError`
otherwise. -/
def enumBindProcess (legal : List String) (v : String) :
    Except PyError String :=
  if legal.contains v then .ok v
  else .error (.lookupError "is not among the defined enum values")

namespace Reservation

/-- Write-time validation of `Reservation.reservation_state`:
`Enum(*[s.value for s in ReservationStateMachine.states])`. -/
def reservation_state_bind (rsm : PyStateMachine) (v : String) :
    Except PyError String :=
  enumBindProcess rsm.enumValues v

/-- Write-time validation of `Reservation.provisioning_state`:
`Enum(*[s.name for s in ProvisioningStateMachine.states])`. -/
def provisioning_state_bind (psm : PyStateMachine) (v : String) :
    Except PyError String :=
  enumBindProcess psm.enumNames v

/-- Write-time validation of `Reservation.lifecycle_state`:
`Enum(*[s.value for s in LifecycleStateMachine.states])`. -/
def lifecycle_state_bind (lsm : PyStateMachine) (v : String) :
    Except PyError String :=
  enumBindProcess lsm.enumValues v

end Reservation

/-! ## Table rows (`model.py` lines 184-487)

Stored rows: `Uuid` columns hold the UUID's 128-bit integer value,
`UtcTimestamp` columns hold the stored UTC wall-clock seconds (the
`yyyy-mm-dd hh:mm:ss` string compares exactly like this integer), nullable
columns are `Option`s. -/

/-- A row of `reservations` (class `Reservation`). -/
structure ReservationRow where
  connection_id : Nat
  protocol_version : String
  correlation_id : Nat
  requester_nsa : String
  provider_nsa : String
  reply_to : Option String
  session_security_attributes : Option String
  global_reservation_id : String
  description : Option String
  version : Int
  start_time : Int
  end_time : Int
  bandwidth : Int
  directionality : String
  symmetric : Bool
  src_domain : String
  src_network_type : String
  src_port : String
  src_vlans : String
  src_selected_vlan : Option Int
  dst_domain : String
  dst_network_type : String
  dst_port : String
  dst_vlans : String
  dst_selected_vlan : Option Int
  reservation_state : String
  provisioning_state : Option String
  lifecycle_state : String
deriving DecidableEq, Repr

/-- A row of `path_traces` (class `PathTrace`). -/
structure PathTraceRow where
  path_trace_id : String
  ag_connection_id : String
  connection_id : Nat
deriving DecidableEq, Repr

/-- A row of `paths` (class `Path`). -/
structure PathRow where
  path_id : Nat
  path_trace_id : String
  ag_connection_id : String
deriving DecidableEq, Repr

/-- A row of `segments` (class `Segment`). -/
structure SegmentRow where
  segment_id : String
  path_id : Nat
  upa_connection_id : String
  order : Int
deriving DecidableEq, Repr

/-- A row of `stps` (class `Stp`). -/
structure StpRow where
  stp_id : String
  segment_id : String
  path_id : Nat
  order : Int
deriving DecidableEq, Repr

/-- A row of `parameters` (class `Parameter`). -/
structure ParameterRow where
  connection_id : Nat
  key : String
  value : Option String
deriving DecidableEq, Repr

/-- A row of `ports` (class `Port`). -/
structure PortRow where
  port_id : Nat
  name : String
  vlans : String
  remote_stp : Option String
  bandwidth : Int
  enabled : Bool
deriving DecidableEq, Repr

/-- A row of `connections` (class `Connection`). -/
structure ConnectionRow where
  connection_id : Nat
  bandwidth : Int
  source_port_id : Nat
  source_vlan : Int
  dest_port_id : Nat
  dest_vlan : Int
  subscription_id : Nat
deriving DecidableEq, Repr

/-- The database: one list of rows per table of the schema. -/
structure DB where
  reservations : List ReservationRow
  path_traces : List PathTraceRow
  paths : List PathRow
  segments : List SegmentRow
  stps : List StpRow
  parameters : List ParameterRow
  ports : List PortRow
  connections : List ConnectionRow
deriving DecidableEq, Repr

/-! ## Write-time table constraints (primary key, `unique=True`,
`CheckConstraint(start_time < end_time)`) -/

/-- `INSERT INTO reservations`: the storage engine enforces the primary key
on `connection_id`, `unique=True` on `correlation_id` (line 197) and
`CheckConstraint(start_time < end_time)` (line 275). -/
def insertReservation (tbl : List ReservationRow) (r : ReservationRow) :
    Except PyError (List ReservationRow) :=
  if tbl.any (fun x => x.connection_id == r.connection_id) then
    .error (.integrityError "UNIQUE constraint failed: reservations.connection_id")
  else if tbl.any (fun x => x.correlation_id == r.correlation_id) then
    .error (.integrityError "UNIQUE constraint failed: reservations.correlation_id")
  else if !(decide (r.start_time < r.end_time)) then
    .error (.integrityError "CHECK constraint failed: start_time < end_time")
  else
    .ok (tbl ++ [r])

/-- `INSERT INTO connections`: the storage engine enforces the primary key
on `connection_id` and `unique=True` on `subscription_id` (lines 471-473).
(Foreign-key existence checks against `reservations` and `ports` are not
modelled here; no claim depends on them.) -/
def insertConnection (tbl : List ConnectionRow) (c : ConnectionRow) :
    Except PyError (List ConnectionRow) :=
  if tbl.any (fun x => x.connection_id == c.connection_id) then
    .error (.integrityError "UNIQUE constraint failed: connections.connection_id")
  else if tbl.any (fun x => x.subscription_id == c.subscription_id) then
    .error (.integrityError "UNIQUE constraint failed: connections.subscription_id")
  else
    .ok (tbl ++ [c])

/-! ## Engine-level cascade delete (`ondelete="CASCADE"` foreign keys:
`path_traces.connection_id` → `reservations`, `paths.(path_trace_id,
ag_connection_id)` → `path_traces`, `segments.path_id` → `paths`,
`stps.(segment_id, path_id)` → `segments`, `parameters.connection_id` →
`reservations`, `connections.connection_id` → `reservations`). -/

/-- `DELETE FROM reservations WHERE connection_id = cid` with the schema's
`ondelete="CASCADE"` foreign keys: the engine deletes each child row whose
foreign-key columns match the key of a deleted parent row, level by level.
`ports` has no foreign key to any deleted table and is untouched. -/
def deleteReservation (db : DB) (cid : Nat) : DB :=
  let delPts := db.path_traces.filter (fun pt => pt.connection_id == cid)
  let pathDel := fun (p : PathRow) =>
    delPts.any (fun pt =>
      pt.path_trace_id == p.path_trace_id &&
      pt.ag_connection_id == p.ag_connection_id)
  let delPaths := db.paths.filter pathDel
  let segDel := fun (s : SegmentRow) => delPaths.any (fun p => p.path_id == s.path_id)
  let delSegs := db.segments.filter segDel
  let stpDel := fun (t : StpRow) =>
    delSegs.any (fun s => s.segment_id == t.segment_id && s.path_id == t.path_id)
  { reservations := db.reservations.filter (fun r => !(r.connection_id == cid))
    path_traces := db.path_traces.filter (fun pt => !(pt.connection_id == cid))
    paths := db.paths.filter (fun p => !(pathDel p))
    segments := db.segments.filter (fun s => !(segDel s))
    stps := db.stps.filter (fun t => !(stpDel t))
    parameters := db.parameters.filter (fun pm => !(pm.connection_id == cid))
    ports := db.ports
    connections := db.connections.filter (fun c => !(c.connection_id == cid)) }

/-- A `path_traces` row references reservation `cid` directly. -/
def ptRefs (cid : Nat) (pt : PathTraceRow) : Bool :=
  pt.connection_id == cid

/-- A `paths` row transitively references reservation `cid`: its composite
foreign key matches a `path_traces` row of `db` that references `cid`. -/
def pathRefs (db : DB) (cid : Nat) (p : PathRow) : Bool :=
  db.path_traces.any (fun pt =>
    ptRefs cid pt &&
    pt.path_trace_id == p.path_trace_id &&
    pt.ag_connection_id == p.ag_connection_id)

/-- A `segments` row transitively references reservation `cid` through its
parent `paths` row. -/
def segRefs (db : DB) (cid : Nat) (s : SegmentRow) : Bool :=
  db.paths.any (fun p => pathRefs db cid p && p.path_id == s.path_id)

/-- A `stps` row transitively references reservation `cid` through its
parent `segments` row. -/
def stpRefs (db : DB) (cid : Nat) (t : StpRow) : Bool :=
  db.segments.any (fun s =>
    segRefs db cid s && s.segment_id == t.segment_id && s.path_id == t.path_id)

/-! ## Port enable/disable (`Port.enabled`, line 446) -/

/-- Set `Port.enabled` of the port with key `pid` (an `UPDATE` of that one
column; nothing else in the database is touched). -/
def setPortEnabled (db : DB) (pid : Nat) (b : Bool) : DB :=
  { db with
    ports := db.ports.map (fun p =>
      if p.port_id == pid then { p with enabled := b } else p) }

/-! ## Ordered sibling collections (`ordering_list("order")`,
`Path.segments` lines 355-362 and `Segment.stps` lines 386-393)

SQLAlchemy's `OrderingList` with the default zero-based ordering function:
`append` assigns the new entity the position `len(self) - 1`; `insert`,
`remove`, `pop` and item assignment perform the structural change on the
plain list and then `_reorder`, which writes each sibling's position into
its `order` attribute. -/

/-- A member of an ordered collection: the sibling row's `order` attribute
and its remaining data. -/
structure OrderedRow (α : Type) where
  item : α
  order : Int
deriving DecidableEq, Repr

namespace OrderingList

/-- `_reorder` from position `n` on: write each element's list position into
its `order` attribute. -/
def reorderFrom (n : Nat) : List (OrderedRow α) → List (OrderedRow α)
  | [] => []
  | e :: rest => { e with order := (n : Int) } :: reorderFrom (n + 1) rest

/-- `OrderingList._reorder`: renumber the whole collection zero-based. -/
def reorderAll (l : List (OrderedRow α)) : List (OrderedRow α) :=
  reorderFrom 0 l

/-- `list.insert(i, e)` (clamping an out-of-range index like Python). -/
def listInsertAt : Nat → OrderedRow α → List (OrderedRow α) → List (OrderedRow α)
  | _, e, [] => [e]
  | 0, e, l => e :: l
  | n + 1, e, x :: xs => x :: listInsertAt n e xs

/-- Plain removal of the element at position `i` (no-op out of range). -/
def listRemoveAt : List (OrderedRow α) → Nat → List (OrderedRow α)
  | [], _ => []
  | _ :: xs, 0 => xs
  | x :: xs, n + 1 => x :: listRemoveAt xs n

/-- `OrderingList.append(e)`: plain append, then `_order_entity(len - 1, e)`
sets only the new element's position. -/
def append (l : List (OrderedRow α)) (e : OrderedRow α) : List (OrderedRow α) :=
  l ++ [{ e with order := (l.length : Int) }]

/-- `OrderingList.insert(i, e)`: plain insert, then `_reorder`. -/
def insertAt (l : List (OrderedRow α)) (i : Nat) (e : OrderedRow α) :
    List (OrderedRow α) :=
  reorderAll (listInsertAt i e l)

/-- `OrderingList.remove(e)` / `OrderingList.pop(i)` on the element at
position `i`: plain removal, then `_reorder`. -/
def removeAt (l : List (OrderedRow α)) (i : Nat) : List (OrderedRow α) :=
  reorderAll (listRemoveAt l i)

end OrderingList

/-! ## STP accessors (`Reservation.src_stp` / `dst_stp`, lines 277-313) -/

namespace nsi

/-- Modelled from the spec: `supa.util.nsi.Stp` is not among the sources;
per the spec it is "a value-object constructor that builds a path-endpoint
identifier from (domain, network_type, port, VLAN-label)". -/
structure Stp where
  domain : String
  network_type : String
  port : String
  labels : String
deriving DecidableEq, Repr

end nsi

/-- Python `str(x)` for an `Optional[int]`: `str(None)` is the text
`"None"`; an `f`-string interpolates it verbatim. -/
def pyStrOfOptInt : Option Int → String
  | none => "None"
  | some n => toString n

namespace Reservation

/-- `Reservation.src_stp(selected)`: picks `src_selected_vlan` when
`selected` else `src_vlans`, interpolates it into `f"vlan=..."` and builds
the source-endpoint `nsi.Stp`. -/
def src_stp (r : ReservationRow) (selected : Bool) : nsi.Stp :=
  let vlans := if selected then pyStrOfOptInt r.src_selected_vlan else r.src_vlans
  { domain := r.src_domain
    network_type := r.src_network_type
    port := r.src_port
    labels := "vlan=" ++ vlans }

/-- `Reservation.dst_stp(selected)`: as `src_stp`, for the destination. -/
def dst_stp (r : ReservationRow) (selected : Bool) : nsi.Stp :=
  let vlans := if selected then pyStrOfOptInt r.dst_selected_vlan else r.dst_vlans
  { domain := r.dst_domain
    network_type := r.dst_network_type
    port := r.dst_port
    labels := "vlan=" ++ vlans }

end Reservation

/-! ## Theorems -/

/-- Claim C2: the UTC timestamp codec's decode is asymmetric: a stored
timestamp carrying timezone information decodes to the same instant
converted to UTC; a stored timestamp without timezone information decodes
to the same wall-clock value with the UTC timezone attached and no offset
conversion; null decodes to null. -/
theorem utcTimestamp_decode_asymmetric :
    UtcTimestamp.process_result_value none = none ∧
    (∀ (v : PyDatetime) (o : Int), v.tzOffset = some o →
      UtcTimestamp.process_result_value (some v) = some (v.astimezoneUtc o) ∧
      (v.astimezoneUtc o).tzOffset = some 0 ∧
      (v.astimezoneUtc o).instant? = v.instant?) ∧
    (∀ v : PyDatetime, v.tzOffset = none →
      UtcTimestamp.process_result_value (some v) =
        some { wallSec := v.wallSec, micros := v.micros, tzOffset := some 0 }) := by
  refine ⟨rfl, ?_, ?_⟩
  · intro v o h
    refine ⟨?_, rfl, ?_⟩
    · simp [UtcTimestamp.process_result_value, h]
    · simp [PyDatetime.astimezoneUtc, PyDatetime.instant?, h]
  · intro v h
    simp [UtcTimestamp.process_result_value, h, PyDatetime.replaceTzUtc]

/-- Witness for C2 at concrete stored values: an aware stored value with a
one-hour offset, a naive stored value, each decoded. -/
theorem utcTimestamp_decode_asymmetric_witness :
    UtcTimestamp.process_result_value (some ⟨100, 5, some 3600⟩) =
      some ⟨-3500, 5, some 0⟩ ∧
    UtcTimestamp.process_result_value (some ⟨7, 9, none⟩) =
      some ⟨7, 9, some 0⟩ := by
  refine ⟨?_, ?_⟩
  · have h := (utcTimestamp_decode_asymmetric.2.1 ⟨100, 5, some 3600⟩ 3600 rfl).1
    rw [h]; rfl
  · exact utcTimestamp_decode_asymmetric.2.2 ⟨7, 9, none⟩ rfl

/-- Claim C5: for every timezone-aware timestamp, decoding the
encoded-and-stored value yields the timestamp converted to UTC and truncated
to whole seconds; encoding a naive timestamp fails with the
`UtcTimestampException` (NaiveTimestamp) error. -/
theorem utcTimestamp_roundtrip (t : PyDatetime) :
    (∀ o : Int, t.tzOffset = some o →
      UtcTimestamp.storeRoundtrip (some t) =
        .ok (some { wallSec := t.wallSec - o, micros := 0, tzOffset := some 0 })) ∧
    (t.tzOffset = none →
      UtcTimestamp.process_bind_param (some t) =
        .error (.utcTimestampException
          "Expected timestamp with tzinfo. Got naive timestamp instead")) := by
  constructor
  · intro o h
    simp [UtcTimestamp.storeRoundtrip, UtcTimestamp.process_bind_param, h,
      UtcTimestamp.process_result_value, UtcTimestamp.sqliteDatetimeStore,
      PyDatetime.astimezoneUtc, PyDatetime.replaceTzUtc, Except.map]
  · intro h
    simp [UtcTimestamp.process_bind_param, h]

/-- Witness for C5: a concrete aware timestamp (offset one minute,
999999 microseconds) written and read back, and a concrete naive timestamp
rejected on write. -/
theorem utcTimestamp_roundtrip_witness :
    UtcTimestamp.storeRoundtrip (some ⟨1000, 999999, some 60⟩) =
      .ok (some ⟨940, 0, some 0⟩) ∧
    UtcTimestamp.process_bind_param (some ⟨5, 1, none⟩) =
      .error (.utcTimestampException
        "Expected timestamp with tzinfo. Got naive timestamp instead") := by
  constructor
  · have h := (utcTimestamp_roundtrip ⟨1000, 999999, some 60⟩).1 60 rfl
    rw [h]; rfl
  · exact (utcTimestamp_roundtrip ⟨5, 1, none⟩).2 rfl

/-- Claim C7: inserting a Reservation with `start_time ≥ end_time` is
rejected at write time; an insert with `start_time < end_time` is not
rejected by this check. -/
theorem reservation_start_before_end_check
    (tbl : List ReservationRow) (r : ReservationRow) :
    (r.end_time ≤ r.start_time →
      ∀ tbl', insertReservation tbl r ≠ .ok tbl') ∧
    (r.start_time < r.end_time →
      insertReservation tbl r ≠
        .error (.integrityError "CHECK constraint failed: start_time < end_time")) := by
  constructor
  · intro h tbl'
    unfold insertReservation
    split
    · simp
    · split
      · simp
      · have hc : decide (r.start_time < r.end_time) = false := by
          simp; omega
        rw [hc]
        simp
  · intro h
    unfold insertReservation
    split
    · simp
    · split
      · simp
      · have hc : decide (r.start_time < r.end_time) = true := by simpa using h
        rw [hc]
        simp

/-- Witness for C7: a reservation whose schedule ends at its start is
rejected; one with a proper window does not trip the check constraint. -/
theorem reservation_start_before_end_check_witness :
    (insertReservation []
      ⟨1, "v2", 10, "req", "prov", none, none, "g", none, 1, 50, 50, 1000,
        "BI_DIRECTIONAL", true, "sd", "snt", "sp", "1-10", none,
        "dd", "dnt", "dp", "2-20", none, "ReserveStart", none, "Created"⟩ ≠
      .ok []) ∧
    (insertReservation []
      ⟨1, "v2", 10, "req", "prov", none, none, "g", none, 1, 0, 100, 1000,
        "BI_DIRECTIONAL", true, "sd", "snt", "sp", "1-10", none,
        "dd", "dnt", "dp", "2-20", none, "ReserveStart", none, "Created"⟩ ≠
      .error (.integrityError "CHECK constraint failed: start_time < end_time")) := by
  constructor
  · exact (reservation_start_before_end_check []
      ⟨1, "v2", 10, "req", "prov", none, none, "g", none, 1, 50, 50, 1000,
        "BI_DIRECTIONAL", true, "sd", "snt", "sp", "1-10", none,
        "dd", "dnt", "dp", "2-20", none, "ReserveStart", none, "Created"⟩).1
      (by decide) []
  · exact (reservation_start_before_end_check []
      ⟨1, "v2", 10, "req", "prov", none, none, "g", none, 1, 0, 100, 1000,
        "BI_DIRECTIONAL", true, "sd", "snt", "sp", "1-10", none,
        "dd", "dnt", "dp", "2-20", none, "ReserveStart", none, "Created"⟩).2
      (by decide)

/-- Claim C9: disabling a Port changes no Connection row, cascades no
delete, keeps every port key (so Connection references stay valid), and
this layer performs no rejection of new reservations against a disabled
Port: reservation-insert acceptance is unaffected by the flag. -/
theorem port_disable_frame (db : DB) (pid : Nat) :
    (setPortEnabled db pid false).connections = db.connections ∧
    (setPortEnabled db pid false).ports.map (fun p => p.port_id) =
      db.ports.map (fun p => p.port_id) ∧
    (setPortEnabled db pid false).reservations = db.reservations ∧
    (∀ r : ReservationRow,
      insertReservation (setPortEnabled db pid false).reservations r =
        insertReservation db.reservations r) := by
  refine ⟨rfl, ?_, rfl, fun _ => rfl⟩
  simp only [setPortEnabled, List.map_map]
  apply List.map_congr_left
  intro p _
  by_cases h : p.port_id = pid <;> simp [h]

/-- Claim C10: with a null `src_selected_vlan` (resp. `dst_selected_vlan`),
the endpoint accessor called with `selected=True` does not fail: it returns
the STP for the reservation's (domain, network_type, port) whose labels
string is literally `"vlan=None"`. -/
theorem stp_accessor_null_selected_vlan (r : ReservationRow)
    (hs : r.src_selected_vlan = none) (hd : r.dst_selected_vlan = none) :
    Reservation.src_stp r true =
      { domain := r.src_domain, network_type := r.src_network_type,
        port := r.src_port, labels := "vlan=None" } ∧
    Reservation.dst_stp r true =
      { domain := r.dst_domain, network_type := r.dst_network_type,
        port := r.dst_port, labels := "vlan=None" } := by
  constructor
  · simp [Reservation.src_stp, hs, pyStrOfOptInt]
  · simp [Reservation.dst_stp, hd, pyStrOfOptInt]

/-- Witness for C10: a concrete reservation with both selected VLANs null. -/
theorem stp_accessor_null_selected_vlan_witness :
    Reservation.src_stp
      ⟨1, "v2", 10, "req", "prov", none, none, "g", none, 1, 0, 100, 1000,
        "BI_DIRECTIONAL", true, "sd", "snt", "sp", "1-10", none,
        "dd", "dnt", "dp", "2-20", none, "ReserveStart", none, "Created"⟩
      true =
      { domain := "sd", network_type := "snt", port := "sp",
        labels := "vlan=None" } :=
  (stp_accessor_null_selected_vlan
    ⟨1, "v2", 10, "req", "prov", none, none, "g", none, 1, 0, 100, 1000,
      "BI_DIRECTIONAL", true, "sd", "snt", "sp", "1-10", none,
      "dd", "dnt", "dp", "2-20", none, "ReserveStart", none, "Created"⟩
    rfl rfl).1

/-- Claim C1: for each of the three Reservation state columns the set of
values accepted at write time is exactly the corresponding machine's value
set: members are accepted unchanged, non-members are rejected with a
`LookupError`.  (For `provisioning_state`, which the schema builds from
`s.name`, the spec's identification of the name set with the value set is
the hypothesis `hpsm`.) -/
theorem state_columns_accept_exactly_machine_values
    (rsm psm lsm : PyStateMachine) (hpsm : psm.namesAreValues)
    (v : String) :
    (v ∈ rsm.enumValues → Reservation.reservation_state_bind rsm v = .ok v) ∧
    (v ∉ rsm.enumValues →
      Reservation.reservation_state_bind rsm v =
        .error (.lookupError "is not among the defined enum values")) ∧
    (v ∈ psm.enumValues → Reservation.provisioning_state_bind psm v = .ok v) ∧
    (v ∉ psm.enumValues →
      Reservation.provisioning_state_bind psm v =
        .error (.lookupError "is not among the defined enum values")) ∧
    (v ∈ lsm.enumValues → Reservation.lifecycle_state_bind lsm v = .ok v) ∧
    (v ∉ lsm.enumValues →
      Reservation.lifecycle_state_bind lsm v =
        .error (.lookupError "is not among the defined enum values")) := by
  have hnames : psm.enumNames = psm.enumValues := by
    simp only [PyStateMachine.enumNames, PyStateMachine.enumValues]
    exact List.map_congr_left hpsm
  refine ⟨?_, ?_, ?_, ?_, ?_, ?_⟩ <;>
    intro hv <;>
    simp [Reservation.reservation_state_bind, Reservation.provisioning_state_bind,
      Reservation.lifecycle_state_bind, enumBindProcess, hnames, hv]

/-- Witness for C1 at concrete machines: a member value is accepted and a
non-member is rejected, for each column. -/
theorem state_columns_accept_exactly_machine_values_witness :
    (Reservation.reservation_state_bind ⟨[⟨"ReserveStart", "ReserveStart"⟩]⟩
      "ReserveStart" = .ok "ReserveStart") ∧
    (Reservation.provisioning_state_bind ⟨[⟨"Released", "Released"⟩]⟩
      "Provisioned" =
      .error (.lookupError "is not among the defined enum values")) ∧
    (Reservation.lifecycle_state_bind ⟨[⟨"Created", "Created"⟩]⟩ "Created" =
      .ok "Created") := by
  have h1 := state_columns_accept_exactly_machine_values
    ⟨[⟨"ReserveStart", "ReserveStart"⟩]⟩ ⟨[⟨"Released", "Released"⟩]⟩
    ⟨[⟨"Created", "Created"⟩]⟩ (by intro s hs; simp at hs; simp [hs])
    "ReserveStart"
  have h2 := state_columns_accept_exactly_machine_values
    ⟨[⟨"ReserveStart", "ReserveStart"⟩]⟩ ⟨[⟨"Released", "Released"⟩]⟩
    ⟨[⟨"Created", "Created"⟩]⟩ (by intro s hs; simp at hs; simp [hs])
    "Provisioned"
  have h3 := state_columns_accept_exactly_machine_values
    ⟨[⟨"ReserveStart", "ReserveStart"⟩]⟩ ⟨[⟨"Released", "Released"⟩]⟩
    ⟨[⟨"Created", "Created"⟩]⟩ (by intro s hs; simp at hs; simp [hs])
    "Created"
  exact ⟨h1.1 (by decide), h2.2.2.2.1 (by decide), h3.2.2.2.2.1 (by decide)⟩

/-- Claim C8: a second Reservation with an existing `correlation_id` is
rejected, a second Connection with an existing `subscription_id` is
rejected, and successful inserts keep each column globally unique across
its table. -/
theorem correlation_and_subscription_unique :
    (∀ (tbl : List ReservationRow) (r : ReservationRow),
      (∃ x ∈ tbl, x.correlation_id = r.correlation_id) →
      ∀ tbl', insertReservation tbl r ≠ .ok tbl') ∧
    (∀ (tbl : List ConnectionRow) (c : ConnectionRow),
      (∃ x ∈ tbl, x.subscription_id = c.subscription_id) →
      ∀ tbl', insertConnection tbl c ≠ .ok tbl') ∧
    (∀ (tbl : List ReservationRow) (r : ReservationRow) tbl',
      insertReservation tbl r = .ok tbl' →
      (tbl.map (fun x => x.correlation_id)).Nodup →
      (tbl'.map (fun x => x.correlation_id)).Nodup) ∧
    (∀ (tbl : List ConnectionRow) (c : ConnectionRow) tbl',
      insertConnection tbl c = .ok tbl' →
      (tbl.map (fun x => x.subscription_id)).Nodup →
      (tbl'.map (fun x => x.subscription_id)).Nodup) := by
  refine ⟨?_, ?_, ?_, ?_⟩
  · intro tbl r hdup tbl'
    unfold insertReservation
    split
    · simp
    · have ha : tbl.any (fun x => x.correlation_id == r.correlation_id) = true := by
        rcases hdup with ⟨x, hx, he⟩
        exact List.any_eq_true.mpr ⟨x, hx, by simpa using he⟩
      rw [ha]
      simp
  · intro tbl c hdup tbl'
    unfold insertConnection
    split
    · simp
    · have ha : tbl.any (fun x => x.subscription_id == c.subscription_id) = true := by
        rcases hdup with ⟨x, hx, he⟩
        exact List.any_eq_true.mpr ⟨x, hx, by simpa using he⟩
      rw [ha]
      simp
  · intro tbl r tbl' hok hnd
    unfold insertReservation at hok
    split at hok
    · exact absurd hok (by simp)
    · split at hok
      · exact absurd hok (by simp)
      · split at hok
        · exact absurd hok (by simp)
        · rename_i hpk hcorr hchk
          have htbl : tbl ++ [r] = tbl' := by
            simpa using hok
          subst htbl
          rw [List.map_append]
          simp only [List.map_cons, List.map_nil]
          rw [List.nodup_append]
          refine ⟨hnd, List.nodup_singleton _, ?_⟩
          intro a ha hb
          simp only [List.mem_singleton] at hb
          subst hb
          rcases List.mem_map.mp ha with ⟨x, hx, hxe⟩
          exact hcorr (List.any_eq_true.mpr ⟨x, hx, by simpa using hxe⟩)
  · intro tbl c tbl' hok hnd
    unfold insertConnection at hok
    split at hok
    · exact absurd hok (by simp)
    · split at hok
      · exact absurd hok (by simp)
      · rename_i hpk hsub
        have htbl : tbl ++ [c] = tbl' := by
          simpa using hok
        subst htbl
        rw [List.map_append]
        simp only [List.map_cons, List.map_nil]
        rw [List.nodup_append]
        refine ⟨hnd, List.nodup_singleton _, ?_⟩
        intro a ha hb
        simp only [List.mem_singleton] at hb
        subst hb
        rcases List.mem_map.mp ha with ⟨x, hx, hxe⟩
        exact hsub (List.any_eq_true.mpr ⟨x, hx, by simpa using hxe⟩)

/-- Witness for C8: concrete duplicate `correlation_id` and duplicate
`subscription_id` inserts are both rejected. -/
theorem correlation_and_subscription_unique_witness :
    (insertReservation
      [⟨1, "v2", 10, "req", "prov", none, none, "g", none, 1, 0, 100, 1000,
        "BI_DIRECTIONAL", true, "sd", "snt", "sp", "1-10", none,
        "dd", "dnt", "dp", "2-20", none, "ReserveStart", none, "Created"⟩]
      ⟨2, "v2", 10, "req", "prov", none, none, "g", none, 1, 0, 100, 1000,
        "BI_DIRECTIONAL", true, "sd", "snt", "sp", "1-10", none,
        "dd", "dnt", "dp", "2-20", none, "ReserveStart", none, "Created"⟩ ≠
      .ok []) ∧
    (insertConnection [⟨1, 1000, 3, 5, 4, 6, 7⟩] ⟨2, 1000, 3, 5, 4, 6, 7⟩ ≠
      .ok []) := by
  constructor
  · exact correlation_and_subscription_unique.1
      [⟨1, "v2", 10, "req", "prov", none, none, "g", none, 1, 0, 100, 1000,
        "BI_DIRECTIONAL", true, "sd", "snt", "sp", "1-10", none,
        "dd", "dnt", "dp", "2-20", none, "ReserveStart", none, "Created"⟩]
      ⟨2, "v2", 10, "req", "prov", none, none, "g", none, 1, 0, 100, 1000,
        "BI_DIRECTIONAL", true, "sd", "snt", "sp", "1-10", none,
        "dd", "dnt", "dp", "2-20", none, "ReserveStart", none, "Created"⟩
      (by refine ⟨_, List.mem_singleton.mpr rfl, rfl⟩) []
  · exact correlation_and_subscription_unique.2.1
      [⟨1, 1000, 3, 5, 4, 6, 7⟩] ⟨2, 1000, 3, 5, 4, 6, 7⟩
      (by refine ⟨_, List.mem_singleton.mpr rfl, rfl⟩) []

/-- Helper: `_reorder` keeps the sibling rows' data, in order. -/
theorem reorderFrom_map_item {α : Type} (n : Nat) (l : List (OrderedRow α)) :
    (OrderingList.reorderFrom n l).map (fun x => x.item) =
      l.map (fun x => x.item) := by
  induction l generalizing n with
  | nil => rfl
  | cons e rest ih => simp [OrderingList.reorderFrom, ih]

/-- Helper: `_reorder` starting at `n` writes `n, n+1, ...` into the
`order` attributes. -/
theorem reorderFrom_map_order {α : Type} (n : Nat) (l : List (OrderedRow α)) :
    (OrderingList.reorderFrom n l).map (fun x => x.order) =
      (List.range l.length).map (fun i => Int.ofNat (n + i)) := by
  induction l generalizing n with
  | nil => rfl
  | cons e rest ih =>
    simp only [OrderingList.reorderFrom, List.map_cons, ih, List.length_cons,
      List.range_succ_eq_map, List.map_map]
    congr 1
    apply List.map_congr_left
    intro i _
    simp only [Function.comp_apply]
    congr 1
    omega

/-- Helper: `_reorder` keeps the collection's length. -/
theorem reorderFrom_length {α : Type} (n : Nat) (l : List (OrderedRow α)) :
    (OrderingList.reorderFrom n l).length = l.length := by
  induction l generalizing n with
  | nil => rfl
  | cons e rest ih => simp [OrderingList.reorderFrom, ih]

/-- Helper: after a full `_reorder` the `order` column is exactly
`0, 1, ..., len - 1`. -/
theorem reorderAll_map_order {α : Type} (l : List (OrderedRow α)) :
    (OrderingList.reorderAll l).map (fun x => x.order) =
      (List.range l.length).map (fun i => Int.ofNat i) := by
  have h := reorderFrom_map_order 0 l
  rw [OrderingList.reorderAll, h]
  apply List.map_congr_left
  intro i _
  congr 1
  omega

/-- Claim C4: after any insert, remove, or reorder on an ordered sibling
collection the `order` column is contiguous, zero-based and duplicate-free,
with data order preserved; removing the order-1 segment from `[0,1,2,3]`
renumbers the rest to `[0,1,2]` keeping relative order. -/
theorem ordered_collections_contiguous :
    (∀ (α : Type) (l : List (OrderedRow α)) (i : Nat) (e : OrderedRow α),
      (OrderingList.insertAt l i e).map (fun x => x.order) =
        (List.range (OrderingList.insertAt l i e).length).map
          (fun n => Int.ofNat n) ∧
      ((OrderingList.insertAt l i e).map (fun x => x.order)).Nodup ∧
      (OrderingList.removeAt l i).map (fun x => x.order) =
        (List.range (OrderingList.removeAt l i).length).map
          (fun n => Int.ofNat n) ∧
      ((OrderingList.removeAt l i).map (fun x => x.order)).Nodup ∧
      (OrderingList.removeAt l i).map (fun x => x.item) =
        (OrderingList.listRemoveAt l i).map (fun x => x.item) ∧
      (OrderingList.reorderAll l).map (fun x => x.order) =
        (List.range l.length).map (fun n => Int.ofNat n) ∧
      (l.map (fun x => x.order) =
          (List.range l.length).map (fun n => Int.ofNat n) →
        (OrderingList.append l e).map (fun x => x.order) =
          (List.range (l.length + 1)).map (fun n => Int.ofNat n))) ∧
    OrderingList.removeAt
      ([⟨"s0", 0⟩, ⟨"s1", 1⟩, ⟨"s2", 2⟩, ⟨"s3", 3⟩] :
        List (OrderedRow String)) 1 =
      [⟨"s0", 0⟩, ⟨"s2", 1⟩, ⟨"s3", 2⟩] := by
  constructor
  · intro α l i e
    have hinj : Function.Injective Int.ofNat := fun a b h => Int.ofNat.inj h
    have hlen : ∀ m : List (OrderedRow α),
        (OrderingList.reorderAll m).length = m.length :=
      fun m => reorderFrom_length 0 m
    refine ⟨?_, ?_, ?_, ?_, ?_, reorderAll_map_order l, ?_⟩
    · show (OrderingList.reorderAll _).map _ = _
      rw [reorderAll_map_order]
      have hl : (OrderingList.insertAt l i e).length =
          (OrderingList.listInsertAt i e l).length := hlen _
      rw [hl]
    · show ((OrderingList.reorderAll _).map _).Nodup
      rw [reorderAll_map_order]
      exact (List.nodup_range _).map hinj
    · show (OrderingList.reorderAll _).map _ = _
      rw [reorderAll_map_order]
      have hl : (OrderingList.removeAt l i).length =
          (OrderingList.listRemoveAt l i).length := hlen _
      rw [hl]
    · show ((OrderingList.reorderAll _).map _).Nodup
      rw [reorderAll_map_order]
      exact (List.nodup_range _).map hinj
    · exact reorderFrom_map_item 0 _
    · intro h
      simp only [OrderingList.append, List.map_append, List.map_cons,
        List.map_nil, h, List.range_succ]
      simp [Int.ofNat_eq_natCast]
  · decide

/-- Witness for C4: appending to a concrete contiguous one-element
collection yields orders `[0, 1]`. -/
theorem ordered_collections_contiguous_witness :
    (OrderingList.append ([⟨"a", 0⟩] : List (OrderedRow String)) ⟨"b", 9⟩).map
        (fun x => x.order) =
      (List.range 2).map (fun n => Int.ofNat n) :=
  (ordered_collections_contiguous.1 String [⟨"a", 0⟩] 0 ⟨"b", 9⟩).2.2.2.2.2.2
    (by decide)

/-- Helper: `any` over a filtered list is `any` of the conjunction. -/
theorem any_filter_eq {α : Type} (l : List α) (p q : α → Bool) :
    (l.filter p).any q = l.any (fun x => p x && q x) := by
  induction l with
  | nil => rfl
  | cons x xs ih =>
    by_cases h : p x
    · simp [List.filter_cons, h, ih]
    · simp [List.filter_cons, h, ih]

/-- Helper: `any` respects pointwise-equal predicates. -/
theorem any_congr_eq {α : Type} (l : List α) (p q : α → Bool)
    (h : ∀ x ∈ l, p x = q x) : l.any p = l.any q := by
  induction l with
  | nil => rfl
  | cons x xs ih =>
    simp only [List.any_cons]
    rw [h x (by simp), ih (fun y hy => h y (by simp [hy]))]

/-- Helper: `filter` respects pointwise-equal predicates. -/
theorem filter_congr_eq {α : Type} (l : List α) (p q : α → Bool)
    (h : ∀ x ∈ l, p x = q x) : l.filter p = l.filter q := by
  induction l with
  | nil => rfl
  | cons x xs ih =>
    simp only [List.filter_cons]
    rw [h x (by simp), ih (fun y hy => h y (by simp [hy]))]

/-- Claim C3: deleting a Reservation deletes exactly the rows that
(transitively) reference its `connection_id` in `path_traces`, `paths`,
`segments`, `stps`, `parameters` and `connections`, and no other rows;
`ports` is unchanged. -/
theorem cascade_delete_exact (db : DB) (cid : Nat) :
    (deleteReservation db cid).reservations =
      db.reservations.filter (fun r => !(r.connection_id == cid)) ∧
    (deleteReservation db cid).path_traces =
      db.path_traces.filter (fun pt => !(ptRefs cid pt)) ∧
    (deleteReservation db cid).paths =
      db.paths.filter (fun p => !(pathRefs db cid p)) ∧
    (deleteReservation db cid).segments =
      db.segments.filter (fun s => !(segRefs db cid s)) ∧
    (deleteReservation db cid).stps =
      db.stps.filter (fun t => !(stpRefs db cid t)) ∧
    (deleteReservation db cid).parameters =
      db.parameters.filter (fun pm => !(pm.connection_id == cid)) ∧
    (deleteReservation db cid).connections =
      db.connections.filter (fun c => !(c.connection_id == cid)) ∧
    (deleteReservation db cid).ports = db.ports := by
  have hpath : ∀ p : PathRow,
      ((db.path_traces.filter (fun pt => pt.connection_id == cid)).any
        (fun pt => pt.path_trace_id == p.path_trace_id &&
          pt.ag_connection_id == p.ag_connection_id)) = pathRefs db cid p := by
    intro p
    rw [any_filter_eq]
    unfold pathRefs
    apply any_congr_eq
    intro pt _
    simp [ptRefs, Bool.and_assoc]
  have hseg : ∀ s : SegmentRow,
      ((db.paths.filter (fun p =>
          (db.path_traces.filter (fun pt => pt.connection_id == cid)).any
            (fun pt => pt.path_trace_id == p.path_trace_id &&
              pt.ag_connection_id == p.ag_connection_id))).any
        (fun p => p.path_id == s.path_id)) = segRefs db cid s := by
    intro s
    rw [any_filter_eq]
    unfold segRefs
    apply any_congr_eq
    intro p _
    rw [hpath p]
  have hstp : ∀ t : StpRow,
      ((db.segments.filter (fun s =>
          (db.paths.filter (fun p =>
              (db.path_traces.filter (fun pt => pt.connection_id == cid)).any
                (fun pt => pt.path_trace_id == p.path_trace_id &&
                  pt.ag_connection_id == p.ag_connection_id))).any
            (fun p => p.path_id == s.path_id))).any
        (fun s => s.segment_id == t.segment_id && s.path_id == t.path_id)) =
      stpRefs db cid t := by
    intro t
    rw [any_filter_eq]
    unfold stpRefs
    apply any_congr_eq
    intro s _
    rw [hseg s]
    simp [Bool.and_assoc]
  refine ⟨rfl, rfl, ?_, ?_, ?_, rfl, rfl, rfl⟩
  · show db.paths.filter _ = db.paths.filter _
    apply filter_congr_eq
    intro p _
    exact congrArg (fun b => !b) (hpath p)
  · show db.segments.filter _ = db.segments.filter _
    apply filter_congr_eq
    intro s _
    exact congrArg (fun b => !b) (hseg s)
  · show db.stps.filter _ = db.stps.filter _
    apply filter_congr_eq
    intro t _
    exact congrArg (fun b => !b) (hstp t)

/-- Helper: fixed-width hex rendering has exactly `width` characters. -/
theorem natToHex_length (width n : Nat) : (natToHex width n).length = width := by
  induction width generalizing n with
  | zero => rfl
  | succ w ih => simp [natToHex, ih]

/-- Helper: each digit character for `d < 16` is a hex digit with value `d`,
and is neither a hyphen, nor `'u'`, nor a brace. -/
theorem hexDigitChar_facts (d : Nat) (hd : d < 16) :
    isHexChar (hexDigitChar d) = true ∧
    hexCharVal (hexDigitChar d) = d := by
  have : ∀ e : Fin 16,
      isHexChar (hexDigitChar e.val) = true ∧
      hexCharVal (hexDigitChar e.val) = e.val := by decide
  exact this ⟨d, hd⟩

/-- Helper: every character of the hex rendering is a hex digit. -/
theorem natToHex_all_hex (width n : Nat) :
    ∀ c ∈ natToHex width n, isHexChar c = true := by
  induction width generalizing n with
  | zero => intro c hc; cases hc
  | succ w ih =>
    intro c hc
    simp only [natToHex, List.mem_append, List.mem_singleton] at hc
    rcases hc with hc | hc
    · exact ih _ c hc
    · subst hc
      exact (hexDigitChar_facts (n % 16) (Nat.mod_lt n (by norm_num))).1

/-- Helper: a hex digit character is not a hyphen, not `'u'` and not a
brace. -/
theorem isHexChar_not_special (c : Char) (h : isHexChar c = true) :
    c ≠ '-' ∧ c ≠ 'u' ∧ isBrace c = false := by
  refine ⟨?_, ?_, ?_⟩
  · intro hc; subst hc; exact absurd h (by decide)
  · intro hc; subst hc; exact absurd h (by decide)
  · by_cases h1 : c = '\x7b'
    · subst h1; exact absurd h (by decide)
    · by_cases h2 : c = '\x7d'
      · subst h2; exact absurd h (by decide)
      · simp [isBrace, h1, h2]

/-- Helper: folding the hex digits of `n` (width `w`, `n < 16 ^ w`) onto an
accumulator reads back `a * 16 ^ w + n`. -/
theorem hexListVal_foldl (w : Nat) :
    ∀ (n a : Nat), n < 16 ^ w →
      (natToHex w n).foldl (fun a c => a * 16 + hexCharVal c) a =
        a * 16 ^ w + n := by
  induction w with
  | zero =>
    intro n a hn
    interval_cases n
    simp [natToHex]
  | succ w ih =>
    intro n a hn
    have hdiv : n / 16 < 16 ^ w := by
      apply Nat.div_lt_of_lt_mul
      calc n < 16 ^ (w + 1) := hn
        _ = 16 * 16 ^ w := by ring
    simp only [natToHex, List.foldl_append, List.foldl_cons, List.foldl_nil]
    rw [ih (n / 16) a hdiv]
    rw [(hexDigitChar_facts (n % 16) (Nat.mod_lt n (by norm_num))).2]
    have hmod : n = 16 * (n / 16) + n % 16 := by omega
    calc (a * 16 ^ w + n / 16) * 16 + n % 16
        = a * (16 ^ w * 16) + (16 * (n / 16) + n % 16) := by ring
      _ = a * 16 ^ (w + 1) + n := by
          rw [← pow_succ]
          congr 1
          omega

/-- Helper: the worker is a no-op when the pattern's first character does
not occur in the text. -/
theorem replaceAllGo_eq_self (p : Char) (ps : List Char) (fuel : Nat) :
    ∀ cs : List Char, p ∉ cs → replaceAllGo (p :: ps) fuel cs = cs := by
  induction fuel with
  | zero =>
    intro cs h
    cases cs <;> rfl
  | succ f ih =>
    intro cs h
    cases cs with
    | nil => rfl
    | cons c rest =>
      have hpc : p ≠ c := fun he => h (he ▸ List.mem_cons_self c rest)
      have hpre : (p :: ps).isPrefixOf (c :: rest) = false := by
        simp [List.isPrefixOf, hpc]
      rw [replaceAllGo, hpre]
      simp only [Bool.false_eq_true, if_false]
      rw [ih rest (fun hm => h (List.mem_cons_of_mem c hm))]

/-- Helper: removing occurrences of a pattern whose first character does
not occur in the text is a no-op. -/
theorem replaceAll_eq_self (p : Char) (ps cs : List Char) (h : p ∉ cs) :
    replaceAll (p :: ps) cs = cs :=
  replaceAllGo_eq_self p ps cs.length cs h

/-- Helper: `dropWhile` is a no-op when no element satisfies the predicate. -/
theorem dropWhile_eq_self_of_none (p : Char → Bool) (cs : List Char)
    (h : ∀ c ∈ cs, p c = false) : cs.dropWhile p = cs := by
  cases cs with
  | nil => rfl
  | cons c rest => simp [List.dropWhile_cons, h c (by simp)]

/-- Helper: stripping braces from brace-free text is a no-op. -/
theorem stripBraces_eq_self (cs : List Char)
    (h : ∀ c ∈ cs, isBrace c = false) : stripBraces cs = cs := by
  unfold stripBraces
  rw [dropWhile_eq_self_of_none isBrace cs h]
  rw [dropWhile_eq_self_of_none isBrace cs.reverse
    (fun c hc => h c (List.mem_reverse.mp hc))]
  exact List.reverse_reverse cs

/-- Helper: the five hyphen-separated groups reassemble to the whole hex
string. -/
theorem uuid_groups_join (h : List Char) :
    h.take 8 ++ (h.drop 8).take 4 ++ (h.drop 12).take 4 ++
      (h.drop 16).take 4 ++ h.drop 20 = h := by
  have h12 : h.drop 12 = (h.drop 8).drop 4 := by
    rw [List.drop_drop]
  have h16 : h.drop 16 = (h.drop 12).drop 4 := by
    rw [List.drop_drop]
  have h20 : h.drop 20 = (h.drop 16).drop 4 := by
    rw [List.drop_drop]
  calc h.take 8 ++ (h.drop 8).take 4 ++ (h.drop 12).take 4 ++
        (h.drop 16).take 4 ++ h.drop 20
      = h.take 8 ++ ((h.drop 8).take 4 ++ ((h.drop 12).take 4 ++
          ((h.drop 16).take 4 ++ (h.drop 16).drop 4))) := by
        rw [← h20]; simp [List.append_assoc]
    _ = h.take 8 ++ ((h.drop 8).take 4 ++ ((h.drop 12).take 4 ++
          (h.drop 12).drop 4)) := by rw [List.take_append_drop, ← h16]
    _ = h.take 8 ++ ((h.drop 8).take 4 ++ (h.drop 8).drop 4) := by
        rw [List.take_append_drop, ← h12]
    _ = h.take 8 ++ h.drop 8 := by rw [List.take_append_drop]
    _ = h := List.take_append_drop 8 h

/-- Helper: every character of the hyphenated form comes from the hex
string or is a hyphen. -/
theorem mem_uuidHyphenate (hx : List Char) (c : Char)
    (hc : c ∈ uuidHyphenate hx) : c ∈ hx ∨ c = '-' := by
  unfold uuidHyphenate at hc
  simp only [List.mem_append, List.mem_cons] at hc
  rcases hc with (((h | h | h) | h | h) | h | h) | h | h
  · exact Or.inl (List.take_subset _ _ h)
  · exact Or.inr h
  · exact Or.inl (List.drop_subset _ _ (List.take_subset _ _ h))
  · exact Or.inr h
  · exact Or.inl (List.drop_subset _ _ (List.take_subset _ _ h))
  · exact Or.inr h
  · exact Or.inl (List.drop_subset _ _ (List.take_subset _ _ h))
  · exact Or.inr h
  · exact Or.inl (List.drop_subset _ _ h)

/-- Helper: normalising the hyphenated form of an all-hex string gives the
hex string back. -/
theorem pyUuidNormalize_uuidHyphenate (hx : List Char)
    (hall : ∀ c ∈ hx, isHexChar c = true) :
    pyUuidNormalize (uuidHyphenate hx) = hx := by
  have hu : 'u' ∉ uuidHyphenate hx := by
    intro hc
    rcases mem_uuidHyphenate hx 'u' hc with h | h
    · exact (isHexChar_not_special 'u' (hall 'u' h)).2.1 rfl
    · exact absurd h (by decide)
  have hbr : ∀ c ∈ uuidHyphenate hx, isBrace c = false := by
    intro c hc
    rcases mem_uuidHyphenate hx c hc with h | h
    · exact (isHexChar_not_special c (hall c h)).2.2
    · subst h; decide
  have hurn : "urn:".toList = 'u' :: "rn:".toList := rfl
  have huuid : "uuid:".toList = 'u' :: "uid:".toList := rfl
  unfold pyUuidNormalize
  rw [hurn, replaceAll_eq_self 'u' _ _ hu, huuid, replaceAll_eq_self 'u' _ _ hu]
  rw [stripBraces_eq_self _ hbr]
  have hfil : ∀ seg : List Char, seg ⊆ hx →
      seg.filter (fun c => c != '-') = seg := by
    intro seg hsub
    apply List.filter_eq_self.mpr
    intro a ha
    have hne := (isHexChar_not_special a (hall a (hsub ha))).1
    simpa [bne_iff_ne] using hne
  unfold uuidHyphenate
  simp only [List.filter_append, List.filter_cons]
  simp only [show (('-' : Char) != '-') = false from rfl, Bool.false_eq_true,
    if_false]
  rw [hfil (hx.take 8) (List.take_subset _ _),
    hfil ((hx.drop 8).take 4)
      (fun a ha => List.drop_subset _ _ (List.take_subset _ _ ha)),
    hfil ((hx.drop 12).take 4)
      (fun a ha => List.drop_subset _ _ (List.take_subset _ _ ha)),
    hfil ((hx.drop 16).take 4)
      (fun a ha => List.drop_subset _ _ (List.take_subset _ _ ha)),
    hfil (hx.drop 20) (List.drop_subset _ _)]
  have := uuid_groups_join hx
  simpa [List.append_assoc] using this

/-- Helper: parsing the canonical rendering of `u < 2 ^ 128` reads `u`
back. -/
theorem pyUuidParse_uuidStr (u : Nat) (hu : u < 2 ^ 128) :
    pyUuidParse (uuidStr u) = some u := by
  have h16 : u < 16 ^ 32 := by
    calc u < 2 ^ 128 := hu
      _ = 16 ^ 32 := by norm_num
  have htl : (uuidStr u).toList = uuidHyphenate (natToHex 32 u) := rfl
  unfold pyUuidParse
  rw [htl, pyUuidNormalize_uuidHyphenate _ (natToHex_all_hex 32 u)]
  have hlen : (natToHex 32 u).length = 32 := natToHex_length 32 u
  have hall : (natToHex 32 u).all isHexChar = true :=
    List.all_eq_true.mpr (natToHex_all_hex 32 u)
  rw [if_pos ⟨hlen, hall⟩]
  have hv := hexListVal_foldl 32 u 0 h16
  unfold hexListVal
  rw [hv]
  simp

/-- Helper: the canonical rendering has 36 characters. -/
theorem uuidStr_length (u : Nat) : (uuidStr u).length = 36 := by
  show (uuidHyphenate (natToHex 32 u)).length = 36
  have h32 : (natToHex 32 u).length = 32 := natToHex_length 32 u
  unfold uuidHyphenate
  simp [List.length_append, List.length_take, List.length_drop, h32]

/-- Claim C6: for every valid UUID value `u`, decode (encode `u`) returns
`u`, with encode producing the canonical 36-character hyphenated string;
encoding a non-UUID value and decoding an unparseable string both fail with
the `ValueError` (InvalidValue) error; null passes through unchanged in
both directions. -/
theorem uuid_codec_roundtrip :
    (∀ u : Nat, u < 2 ^ 128 →
      Uuid.process_bind_param (some (.uuid u)) = .ok (some (uuidStr u)) ∧
      (uuidStr u).length = 36 ∧
      Uuid.process_result_value (some (uuidStr u)) = .ok (some u)) ∧
    (∀ s : String,
      Uuid.process_bind_param (some (.other s)) =
        .error (.valueError "is not a valid UUID.")) ∧
    (∀ s : String, pyUuidParse s = none →
      Uuid.process_result_value (some s) =
        .error (.valueError "badly formed hexadecimal UUID string")) ∧
    Uuid.process_bind_param none = .ok none ∧
    Uuid.process_result_value none = .ok none := by
  refine ⟨?_, fun s => rfl, ?_, rfl, rfl⟩
  · intro u hu
    refine ⟨rfl, uuidStr_length u, ?_⟩
    simp only [Uuid.process_result_value]
    rw [pyUuidParse_uuidStr u hu]
  · intro s hs
    simp only [Uuid.process_result_value]
    rw [hs]

/-- Witness for C6: the UUID with integer value 1 round-trips through its
canonical string, and the unparseable string `"zzz"` fails decoding. -/
theorem uuid_codec_roundtrip_witness :
    Uuid.process_result_value (some (uuidStr 1)) = .ok (some 1) ∧
    Uuid.process_result_value (some "zzz") =
      .error (.valueError "badly formed hexadecimal UUID string") := by
  constructor
  · exact (uuid_codec_roundtrip.1 1 (by decide)).2.2
  · exact uuid_codec_roundtrip.2.2.1 "zzz" (by decide)
